import Mathlib

/-!
Shallow embedding of `src/homework.py` (a long-running homework-status poll
bot).  Python runtime values are modelled by `PyVal`, raised exceptions by
`PyErr`, and each function of the source file (`check_tokens`,
`send_message`, `get_api_answer`, `check_response`, `parse_status`, and the
body of `main`'s `while True:` loop) becomes a Lean definition of the same
name.  Fallible Python code returns `Except PyErr _`; the network and the
Telegram transport are inputs (`FetchOutcome`, a `delivery_ok : Bool`).
-/

set_option maxHeartbeats 1000000
set_option linter.unusedVariables false

/-- A decoded Python / JSON value as this program manipulates them:
`None`, booleans, integers, strings, lists, and string-keyed dicts
(modelled as association lists with distinct keys, first match wins). -/
inductive PyVal where
  | none
  | bool (b : Bool)
  | int (n : Int)
  | str (s : String)
  | list (xs : List PyVal)
  | dict (fields : List (String × PyVal))

/-- The Python exceptions this program can raise or observe.
`apiAnswer` is `APIAnswerException` from the project's `exceptions` module
(assumed a plain `Exception` subclass, so `str(e)` is its message);
`unboundLocal` is `UnboundLocalError` as raised by CPython when a local
variable is read before assignment. -/
inductive PyErr where
  | keyError (msg : String)
  | typeError (msg : String)
  | apiAnswer (msg : String)
  | exception (msg : String)
  | attributeError (msg : String)
  | unboundLocal (varName : String)
deriving DecidableEq, Repr

/-- Log severities used by the program. -/
inductive LogLevel where
  | debug
  | error
  | critical
deriving DecidableEq, Repr

/-- One emitted log line (formatting/timestamp elided). -/
structure LogEntry where
  level : LogLevel
  text : String
deriving DecidableEq, Repr

/-- `d.get(k)` on a Python dict: the stored value, or `None` when the key
is absent (the code only ever distinguishes `is None`, so a stored `None`
and a missing key coincide, exactly as in the source). -/
def dictGet (fields : List (String × PyVal)) (k : String) : PyVal :=
  match fields with
  | [] => PyVal.none
  | (k', v) :: rest => if k' = k then v else dictGet rest k

/-- `v.get(k)` on an arbitrary value.  On a non-dict Python would raise
`AttributeError`; the source only applies `.get` after an
`isinstance(response, dict)` check has succeeded, so the default branch is
unreachable there. -/
def pyGet (v : PyVal) (k : String) : PyVal :=
  match v with
  | .dict fields => dictGet fields k
  | _ => PyVal.none

/-- Python truthiness (`if homework:` in `main`). -/
def pyTruthy : PyVal → Bool
  | .none => false
  | .bool b => b
  | .int n => decide (n ≠ 0)
  | .str s => decide (s ≠ "")
  | .list xs => !xs.isEmpty
  | .dict fields => !fields.isEmpty

/-- Python type names, for `AttributeError` messages. -/
def pyTypeName : PyVal → String
  | .none => "NoneType"
  | .bool _ => "bool"
  | .int _ => "int"
  | .str _ => "str"
  | .list _ => "list"
  | .dict _ => "dict"

mutual

/-- Python `str(v)` as used when a value is interpolated into an f-string. -/
def pyStrOf : PyVal → String
  | .none => "None"
  | .bool true => "True"
  | .bool false => "False"
  | .int n => toString n
  | .str s => s
  | .list xs => "[" ++ String.intercalate ", " (pyReprList xs) ++ "]"
  | .dict fields => "\x7b" ++ String.intercalate ", " (pyReprFields fields) ++ "\x7d"

/-- Python `repr(v)` (string-escaping corner cases elided: a string is
rendered between single quotes verbatim, which agrees with CPython for the
quote-free strings this program handles). -/
def pyReprOf : PyVal → String
  | .none => "None"
  | .bool true => "True"
  | .bool false => "False"
  | .int n => toString n
  | .str s => "\x27" ++ s ++ "\x27"
  | .list xs => "[" ++ String.intercalate ", " (pyReprList xs) ++ "]"
  | .dict fields => "\x7b" ++ String.intercalate ", " (pyReprFields fields) ++ "\x7d"

def pyReprList : List PyVal → List String
  | [] => []
  | v :: rest => pyReprOf v :: pyReprList rest

def pyReprFields : List (String × PyVal) → List String
  | [] => []
  | (k, v) :: rest => ("\x27" ++ k ++ "\x27: " ++ pyReprOf v) :: pyReprFields rest

end

/-- Python `str(error)` for each modelled exception, as compared and
interpolated by `main`'s handler: `str(KeyError(m))` is `repr(m)`,
`str` of the other message-carrying exceptions is the message itself, and
`UnboundLocalError`'s text is the CPython diagnostic. -/
def errStr : PyErr → String
  | .keyError msg => "\x27" ++ msg ++ "\x27"
  | .typeError msg => msg
  | .apiAnswer msg => msg
  | .exception msg => msg
  | .attributeError msg => msg
  | .unboundLocal varName =>
      "local variable \x27" ++ varName ++ "\x27 referenced before assignment"

/-- `RETRY_PERIOD = 600` (the fixed sleep; time itself is not modelled). -/
def RETRY_PERIOD : Nat := 600

/-- `ENDPOINT` constant from the source. -/
def ENDPOINT : String :=
  "https://practicum.yandex.ru/api/user_api/homework_statuses/"

/-- `HOMEWORK_VERDICTS`: the static status → verdict-text table. -/
def HOMEWORK_VERDICTS : List (String × String) :=
  [("approved", "Работа проверена: ревьюеру всё понравилось. Ура!"),
   ("reviewing", "Работа взята на проверку ревьюером."),
   ("rejected", "Работа проверена: у ревьюера есть замечания.")]

/-- `HOMEWORK_VERDICTS.get(status)` where `status` is an arbitrary Python
value (`homework.get('status')`): a string is looked up among the table's
string keys; `None`, booleans and integers are hashable but match no
string key, so `.get` returns `None`; a list or dict key is unhashable,
so `dict.get` itself raises `TypeError: unhashable type: ...`. -/
def verdictFor (status : PyVal) : Except PyErr (Option String) :=
  match status with
  | .str s =>
      match HOMEWORK_VERDICTS.find? (fun p => p.1 = s) with
      | Option.some p => Except.ok (Option.some p.2)
      | Option.none => Except.ok Option.none
  | .list _ => Except.error (PyErr.typeError "unhashable type: \x27list\x27")
  | .dict _ => Except.error (PyErr.typeError "unhashable type: \x27dict\x27")
  | _ => Except.ok Option.none

/-- The three environment variables read at module load. -/
structure Config where
  practicum_token : Option String
  telegram_token : Option String
  telegram_chat_id : Option String
deriving DecidableEq, Repr

/-- `check_tokens()`: walks the `ENV_VARS` dict in insertion order; on the
first missing variable it logs at critical severity and calls
`sys.exit()` — which, having no argument, terminates the process with
exit status `0`.  Result: `(some exitStatus, logs)` when the process
exits, `(none, [])` when all variables are present. -/
def check_tokens (cfg : Config) : Option Nat × List LogEntry :=
  match cfg.practicum_token with
  | Option.none =>
      (Option.some 0,
       [⟨LogLevel.critical,
         "Отсутствует обязательная переменная окружения: \"PRACTICUM_TOKEN\". "
           ++ "Программа принудительно остановлена."⟩])
  | Option.some _ =>
      match cfg.telegram_token with
      | Option.none =>
          (Option.some 0,
           [⟨LogLevel.critical,
             "Отсутствует обязательная переменная окружения: \"TELEGRAM_TOKEN\". "
               ++ "Программа принудительно остановлена."⟩])
      | Option.some _ =>
          match cfg.telegram_chat_id with
          | Option.none =>
              (Option.some 0,
               [⟨LogLevel.critical,
                 "Отсутствует обязательная переменная окружения: \"TELEGRAM_CHAT_ID\". "
                   ++ "Программа принудительно остановлена."⟩])
          | Option.some _ => (Option.none, [])

/-- `send_message(bot, message)`: attempts the Telegram delivery
(`delivery_ok` says whether `bot.send_message` succeeds or raises);
a raise is caught by the bare `except Exception:` and logged.  The Python
function has no `return` statement, so its value is `None` on every path,
and it never propagates an exception (`Except.error` never occurs). -/
def send_message (delivery_ok : Bool) (message : String) :
    Except PyErr PyVal × List LogEntry :=
  if delivery_ok then
    (Except.ok PyVal.none, [⟨LogLevel.debug, "Сообщение успешно отправлено."⟩])
  else
    (Except.ok PyVal.none, [⟨LogLevel.error, "Сбой при отправке сообщения."⟩])

/-- What the network does for one `requests.get` call:
either the call raises `requests.RequestException`, or an HTTP response
arrives with a status code and a `.json()` outcome (`Except.error` there
models `.json()` itself raising, e.g. on an undecodable body). -/
inductive FetchOutcome where
  | transportFail
  | response (statusCode : Nat) (body : Except PyErr PyVal)

/-- `get_api_answer(timestamp)`.  The `timestamp` argument only shapes the
request's `from_date` parameter; the server's reaction is the
`FetchOutcome`.  On `requests.RequestException` the function only LOGS
(there is no `raise` in the handler), so control falls through to
`response.status_code` with the local `response` never assigned and CPython
raises `UnboundLocalError`.  Status 400 / 401 / other-non-200 raise
`APIAnswerException` with the messages of the source; on 200 the decoded
body (`response.json()`) is returned. -/
def get_api_answer (timestamp : PyVal) : FetchOutcome → Except PyErr PyVal
  | .transportFail => Except.error (PyErr.unboundLocal "response")
  | .response statusCode body =>
      if statusCode = 400 then
        Except.error (PyErr.apiAnswer "Неверный формат from_date.")
      else if statusCode = 401 then
        Except.error (PyErr.apiAnswer
          "Недействительный или некорректный токен PRACTICUM_TOKEN.")
      else if statusCode ≠ 200 then
        Except.error (PyErr.apiAnswer
          ("Сбой в работе программы: Эндпоинт " ++ ENDPOINT
            ++ " недоступен. Код ответа API: " ++ toString statusCode ++ "."))
      else body

/-- `check_response(response)`: rejects a non-dict (`TypeError`), a missing
or `None` `homeworks` key (`KeyError`), a non-list `homeworks`
(`TypeError`), and a missing or `None` `current_date` key (`KeyError`) —
in that order.  With an empty `homeworks` list it logs a debug line and
falls off the end of the function, returning Python `None` (the "no item"
outcome); otherwise it returns `homeworks[0]`. -/
def check_response (response : PyVal) : Except PyErr PyVal :=
  match response with
  | .dict fields =>
      match dictGet fields "homeworks" with
      | .none =>
          Except.error (PyErr.keyError "В ответе API отсутствует ключ \"homeworks\".")
      | .list homeworks =>
          match dictGet fields "current_date" with
          | .none =>
              Except.error
                (PyErr.keyError "В ответе API отсутствует ключ \"current_date\".")
          | _ =>
              match homeworks with
              | [] => Except.ok PyVal.none
              | h :: _ => Except.ok h
      | _ =>
          Except.error (PyErr.typeError
            ("В ответе API под ключом \"homeworks\" "
              ++ "ожидаются данные в виде списка."))
  | _ => Except.error (PyErr.typeError "В ответе API ожидается словарь.")

/-- `parse_status(homework)`: `KeyError` when `homework_name` is missing
(or stored as `None`); then the lookup
`HOMEWORK_VERDICTS.get(homework.get('status'))` runs — it raises
`TypeError` when the status value is unhashable (a list or dict), and
otherwise the generic `Exception` with the "недокументированный статус …
либо домашку без статуса" message is raised whenever the lookup returned
`None` — which covers both a missing `status` key and an unknown hashable
status value; otherwise the formatted sentence.  Applying `.get` to a
non-dict would raise `AttributeError`. -/
def parse_status (homework : PyVal) : Except PyErr String :=
  match homework with
  | .dict fields =>
      match dictGet fields "homework_name" with
      | .none => Except.error (PyErr.keyError "Отсутствует ключ \"homework_name\".")
      | homework_name =>
          match verdictFor (dictGet fields "status") with
          | Except.error e => Except.error e
          | Except.ok Option.none =>
              Except.error (PyErr.exception
                ("API возвращает недокументированный статус домашней работы, "
                  ++ "либо домашку без статуса."))
          | Except.ok (Option.some verdict) =>
              Except.ok ("Изменился статус проверки работы \""
                ++ pyStrOf homework_name ++ "\". " ++ verdict)
  | _ =>
      Except.error (PyErr.attributeError
        ("\x27" ++ pyTypeName homework ++ "\x27 object has no attribute \x27get\x27"))

/-- The mutable state of `main`'s loop: the `timestamp` cursor (an `int`
initially, then whatever `response.get('current_date')` returned) and the
`current_error` dedup string. -/
structure LoopState where
  timestamp : PyVal
  current_error : String

/-- `main`'s initialisation: `timestamp = int(time.time())`,
`current_error = ''`. -/
def initState (t0 : Int) : LoopState :=
  { timestamp := PyVal.int t0, current_error := "" }

/-- The `try:` block of one loop iteration:
`response = get_api_answer(timestamp)`, `homework = check_response(response)`,
`if homework:` run `parse_status` and `send_message`, then
`timestamp = response.get('current_date')`.  Returns the new cursor value
and the list of texts passed to `send_message`, or the first exception
raised (a raise inside `send_message`'s own body would also land here, but
`send_message` never raises). -/
def tryBody (delivery_ok : Bool) (timestamp : PyVal) (env : FetchOutcome) :
    Except PyErr (PyVal × List String) :=
  match get_api_answer timestamp env with
  | Except.error e => Except.error e
  | Except.ok response =>
      match check_response response with
      | Except.error e => Except.error e
      | Except.ok homework =>
          if pyTruthy homework then
            match parse_status homework with
            | Except.error e => Except.error e
            | Except.ok message =>
                match (send_message delivery_ok message).1 with
                | Except.error e => Except.error e
                | Except.ok _ =>
                    Except.ok (pyGet response "current_date", [message])
          else
            Except.ok (pyGet response "current_date", [])

/-- The `except Exception as error:` handler of `main`:
formats `'Сбой в работе программы: ...'`; when `str(error)` differs from
`current_error` it records the new text and sends the message, otherwise
it suppresses.  Returns the updated state and the texts passed to
`send_message`. -/
def handleError (delivery_ok : Bool) (s : LoopState) (e : PyErr) :
    LoopState × List String :=
  let message := "Сбой в работе программы: " ++ errStr e
  if s.current_error ≠ errStr e then
    let _ := (send_message delivery_ok message).1
    ({ s with current_error := errStr e }, [message])
  else
    (s, [])

/-- One full iteration of `while True:` (minus the sleep, which carries no
state).  Second component: every text passed to `send_message` during the
iteration. -/
def runCycle (delivery_ok : Bool) (env : FetchOutcome) (s : LoopState) :
    LoopState × List String :=
  match tryBody delivery_ok s.timestamp env with
  | Except.ok (ts, sent) => ({ s with timestamp := ts }, sent)
  | Except.error e => handleError delivery_ok s e

/-- A finite prefix of the infinite loop: one `FetchOutcome` per
iteration, accumulating all `send_message` texts. -/
def runCycles (delivery_ok : Bool) (envs : List FetchOutcome) (s : LoopState) :
    LoopState × List String :=
  match envs with
  | [] => (s, [])
  | env :: rest =>
      let r := runCycle delivery_ok env s
      let r2 := runCycles delivery_ok rest r.1
      (r2.1, r.2 ++ r2.2)

/-- `main()` up to a finite prefix of the loop: `check_tokens()` first —
when it exits the process, the loop never starts and the exit status is
returned in `Except.error`; otherwise the loop runs from `initState`. -/
def main_run (cfg : Config) (t0 : Int) (delivery_ok : Bool)
    (envs : List FetchOutcome) : Except Nat (LoopState × List String) :=
  match (check_tokens cfg).1 with
  | Option.some code => Except.error code
  | Option.none => Except.ok (runCycles delivery_ok envs (initState t0))

/-- Whether an exception value is a `KeyError` (the missing-key /
"ShapeError" family). -/
def isKeyError : PyErr → Bool
  | .keyError _ => true
  | _ => false

/-- `(send_message delivery_ok message).1` is `Except.ok PyVal.none` for
every input: the bare `except Exception:` means the function never raises,
and the absence of a `return` statement means its value is always `None`. -/
theorem send_message_never_raises (delivery_ok : Bool) (message : String) :
    (send_message delivery_ok message).1 = Except.ok PyVal.none := by
  cases delivery_ok <;> rfl

/-- C6: for every well-formed response — a dict whose `homeworks` key holds
a list and whose `current_date` key is present — `check_response` does not
fail: on a non-empty `homeworks` it returns exactly the first element
(ignoring all others, which do not occur in the result), and on an empty
`homeworks` it returns the distinct "no item" outcome (Python `None`). -/
theorem check_response_first_or_none (fields : List (String × PyVal))
    (homeworks : List PyVal)
    (hh : dictGet fields "homeworks" = PyVal.list homeworks)
    (hc : dictGet fields "current_date" ≠ PyVal.none) :
    check_response (PyVal.dict fields)
      = Except.ok (match homeworks with
                   | [] => PyVal.none
                   | h :: _ => h) := by
  cases homeworks with
  | nil =>
      cases hcd : dictGet fields "current_date"
      case none => exact absurd hcd hc
      all_goals simp [check_response, hh, hcd]
  | cons h t =>
      cases hcd : dictGet fields "current_date"
      case none => exact absurd hcd hc
      all_goals simp [check_response, hh, hcd]

/-- Witness for `check_response_first_or_none`: a two-element `homeworks`
yields exactly its head, and an empty `homeworks` yields `None`. -/
theorem check_response_first_or_none_witness :
    check_response (PyVal.dict
        [("homeworks", PyVal.list [PyVal.str "a", PyVal.str "b"]),
         ("current_date", PyVal.int 1000)])
      = Except.ok (PyVal.str "a")
    ∧ check_response (PyVal.dict
        [("homeworks", PyVal.list []),
         ("current_date", PyVal.int 1000)])
      = Except.ok PyVal.none :=
  ⟨check_response_first_or_none
     [("homeworks", PyVal.list [PyVal.str "a", PyVal.str "b"]),
      ("current_date", PyVal.int 1000)]
     [PyVal.str "a", PyVal.str "b"] rfl (by simp [dictGet]),
   check_response_first_or_none
     [("homeworks", PyVal.list []), ("current_date", PyVal.int 1000)]
     [] rfl (by simp [dictGet])⟩

/-- C3 counterexample: on a work item that has a `homework_name` but no
`status` key, `parse_status` raises the generic unknown-status `Exception`
("API возвращает недокументированный статус … либо домашку без статуса"),
not the missing-key `KeyError` the claim requires for a missing `status`;
and on a `status` holding a list — a value that is not a key of the
verdict table — the `HOMEWORK_VERDICTS.get` lookup raises
`TypeError: unhashable type` rather than the claimed unknown-status
error. -/
theorem parse_status_missing_status_counterexample :
    parse_status (PyVal.dict [("homework_name", PyVal.str "hw1")])
      = Except.error (PyErr.exception
          ("API возвращает недокументированный статус домашней работы, "
            ++ "либо домашку без статуса."))
    ∧ isKeyError (PyErr.exception
          ("API возвращает недокументированный статус домашней работы, "
            ++ "либо домашку без статуса.")) = false
    ∧ parse_status (PyVal.dict
        [("homework_name", PyVal.str "hw1"), ("status", PyVal.list [])])
      = Except.error (PyErr.typeError "unhashable type: \x27list\x27") :=
  ⟨rfl, rfl, rfl⟩

/-- C3 (amended): `parse_status` fails with `KeyError` (the missing-key
error) when `homework_name` is missing; it fails with the unknown-status
`Exception` both when the `status` key is missing and when its value is a
hashable value that is not a key of `HOMEWORK_VERDICTS`; when the status
value is unhashable (a list or dict) the table lookup itself fails with
`TypeError: unhashable type`; with a known status it returns the
formatted sentence. -/
theorem parse_status_spec (fields : List (String × PyVal)) :
    (dictGet fields "homework_name" = PyVal.none →
      parse_status (PyVal.dict fields)
        = Except.error (PyErr.keyError "Отсутствует ключ \"homework_name\"."))
    ∧ (dictGet fields "homework_name" ≠ PyVal.none →
        verdictFor (dictGet fields "status") = Except.ok Option.none →
        parse_status (PyVal.dict fields)
          = Except.error (PyErr.exception
              ("API возвращает недокументированный статус домашней работы, "
                ++ "либо домашку без статуса.")))
    ∧ (∀ xs, dictGet fields "homework_name" ≠ PyVal.none →
        dictGet fields "status" = PyVal.list xs →
        parse_status (PyVal.dict fields)
          = Except.error (PyErr.typeError "unhashable type: \x27list\x27"))
    ∧ (∀ fs, dictGet fields "homework_name" ≠ PyVal.none →
        dictGet fields "status" = PyVal.dict fs →
        parse_status (PyVal.dict fields)
          = Except.error (PyErr.typeError "unhashable type: \x27dict\x27"))
    ∧ (∀ verdict, dictGet fields "homework_name" ≠ PyVal.none →
        verdictFor (dictGet fields "status") = Except.ok (Option.some verdict) →
        parse_status (PyVal.dict fields)
          = Except.ok ("Изменился статус проверки работы \""
              ++ pyStrOf (dictGet fields "homework_name") ++ "\". " ++ verdict)) := by
  refine ⟨?_, ?_, ?_, ?_, ?_⟩
  · intro hname
    simp [parse_status, hname]
  · intro hname hverdict
    cases hn : dictGet fields "homework_name"
    case none => exact absurd hn hname
    all_goals simp [parse_status, hn, hverdict]
  · intro xs hname hstatus
    cases hn : dictGet fields "homework_name"
    case none => exact absurd hn hname
    all_goals simp [parse_status, verdictFor, hn, hstatus]
  · intro fs hname hstatus
    cases hn : dictGet fields "homework_name"
    case none => exact absurd hn hname
    all_goals simp [parse_status, verdictFor, hn, hstatus]
  · intro verdict hname hverdict
    cases hn : dictGet fields "homework_name"
    case none => exact absurd hn hname
    all_goals simp [parse_status, hn, hverdict]

/-- Witness for `parse_status_spec`: the success branch on
`{'homework_name': 'hw1', 'status': 'approved'}`, the missing-name branch
on `{'status': 'approved'}`, and the unhashable-status branch on
`{'homework_name': 'hw1', 'status': []}`. -/
theorem parse_status_spec_witness :
    parse_status (PyVal.dict
        [("homework_name", PyVal.str "hw1"), ("status", PyVal.str "approved")])
      = Except.ok ("Изменился статус проверки работы \"hw1\". "
          ++ "Работа проверена: ревьюеру всё понравилось. Ура!")
    ∧ parse_status (PyVal.dict [("status", PyVal.str "approved")])
      = Except.error (PyErr.keyError "Отсутствует ключ \"homework_name\".")
    ∧ parse_status (PyVal.dict
        [("homework_name", PyVal.str "hw2"), ("status", PyVal.list [])])
      = Except.error (PyErr.typeError "unhashable type: \x27list\x27") :=
  ⟨((parse_status_spec
        [("homework_name", PyVal.str "hw1"), ("status", PyVal.str "approved")]).2.2.2.2
      "Работа проверена: ревьюеру всё понравилось. Ура!"
      (by simp [dictGet]) rfl),
   (parse_status_spec [("status", PyVal.str "approved")]).1 rfl,
   ((parse_status_spec
        [("homework_name", PyVal.str "hw2"), ("status", PyVal.list [])]).2.2.1
      [] (by simp [dictGet]) rfl)⟩

/-- C4 (code bug): when the network call cannot complete
(`requests.RequestException`), `get_api_answer` does NOT fail with a
distinct transport error: the `except` clause only logs, control falls
through to `response.status_code` with `response` unbound, and the call
fails with `UnboundLocalError` — an unrelated error.  This holds for every
cursor value. -/
theorem get_api_answer_transport_unbound :
    get_api_answer (PyVal.int 0) FetchOutcome.transportFail
      = Except.error (PyErr.unboundLocal "response")
    ∧ (∀ timestamp : PyVal,
        get_api_answer timestamp FetchOutcome.transportFail
          = Except.error (PyErr.unboundLocal "response")) :=
  ⟨rfl, fun _ => rfl⟩

/-- C5 counterexample: `send_message` does not return a boolean.  On a
successful delivery its value is Python `None` (there is no `return`
statement), not `True`; the failed-delivery value is the identical `None`,
so the caller cannot read delivery success off the result. -/
theorem send_message_counterexample :
    (send_message true "text").1 = Except.ok PyVal.none
    ∧ PyVal.none ≠ PyVal.bool true
    ∧ PyVal.none ≠ PyVal.bool false
    ∧ (send_message false "text").1 = (send_message true "text").1 :=
  ⟨rfl, fun h => PyVal.noConfusion h, fun h => PyVal.noConfusion h, rfl⟩

/-- C5 (amended): `send_message` never propagates an exception to its
caller — every transport failure is caught and converted into a local
error-log entry (and a success into a debug-log entry) — but it returns
Python `None` on every path rather than a boolean, for failed and
successful deliveries alike. -/
theorem send_message_spec (delivery_ok : Bool) (message : String) :
    (send_message delivery_ok message).1 = Except.ok PyVal.none
    ∧ (send_message delivery_ok message).2
        = (if delivery_ok then
             [⟨LogLevel.debug, "Сообщение успешно отправлено."⟩]
           else
             [⟨LogLevel.error, "Сбой при отправке сообщения."⟩]) := by
  cases delivery_ok <;> exact ⟨rfl, rfl⟩

/-- C7 counterexample: with `PRACTICUM_TOKEN` missing, `check_tokens`
terminates the process with exit status 0 — `sys.exit()` is called with no
argument — not with exit code 1; the loop still never starts
(`main_run` is `Except.error 0`, not `Except.error 1`). -/
theorem check_tokens_counterexample :
    (check_tokens ⟨Option.none, Option.some "t", Option.some "c"⟩).1
      = Option.some 0
    ∧ (Option.some 0 : Option Nat) ≠ Option.some 1
    ∧ main_run ⟨Option.none, Option.some "t", Option.some "c"⟩ 0 true []
        = Except.error 0
    ∧ (Except.error 0 : Except Nat (LoopState × List String))
        ≠ Except.error 1 :=
  ⟨rfl, by simp, rfl, by simp⟩

/-- C7 (amended): when any of the three required environment variables is
missing, `check_tokens` emits a critical-severity log entry and the
process exits before the loop starts (no cycle ever runs) — but with exit
status 0, because `sys.exit()` is called without an argument, not with
exit code 1. -/
theorem check_tokens_missing_exits (cfg : Config) (t0 : Int) (d : Bool)
    (envs : List FetchOutcome)
    (hmissing : cfg.practicum_token = Option.none
      ∨ cfg.telegram_token = Option.none
      ∨ cfg.telegram_chat_id = Option.none) :
    (check_tokens cfg).1 = Option.some 0
    ∧ (∃ entry ∈ (check_tokens cfg).2, entry.level = LogLevel.critical)
    ∧ main_run cfg t0 d envs = Except.error 0 := by
  obtain ⟨p, t, c⟩ := cfg
  have hck : (check_tokens ⟨p, t, c⟩).1 = Option.some 0
      ∧ ∃ entry ∈ (check_tokens ⟨p, t, c⟩).2, entry.level = LogLevel.critical := by
    cases p with
    | none => exact ⟨rfl, by simp [check_tokens]⟩
    | some p' =>
        cases t with
        | none => exact ⟨rfl, by simp [check_tokens]⟩
        | some t' =>
            cases c with
            | none => exact ⟨rfl, by simp [check_tokens]⟩
            | some c' => simp at hmissing
  exact ⟨hck.1, hck.2, by simp [main_run, hck.1]⟩

/-- Witness for `check_tokens_missing_exits`: the bot-token variable
missing. -/
theorem check_tokens_missing_exits_witness :
    (check_tokens ⟨Option.some "p", Option.none, Option.some "c"⟩).1
      = Option.some 0
    ∧ (∃ entry ∈ (check_tokens
          ⟨Option.some "p", Option.none, Option.some "c"⟩).2,
        entry.level = LogLevel.critical)
    ∧ main_run ⟨Option.some "p", Option.none, Option.some "c"⟩ 42 false []
        = Except.error 0 :=
  check_tokens_missing_exits ⟨Option.some "p", Option.none, Option.some "c"⟩
    42 false [] (Or.inr (Or.inl rfl))

/-- The try-block's result does not depend on whether the Telegram delivery
succeeds, because `send_message` swallows every delivery failure. -/
theorem tryBody_delivery_irrel (d1 d2 : Bool) (t : PyVal) (env : FetchOutcome) :
    tryBody d1 t env = tryBody d2 t env := by
  cases hga : get_api_answer t env with
  | error e => simp [tryBody, hga]
  | ok response =>
      cases hcr : check_response response with
      | error e => simp [tryBody, hga, hcr]
      | ok homework =>
          cases ht : pyTruthy homework with
          | false => simp [tryBody, hga, hcr, ht]
          | true =>
              cases hps : parse_status homework with
              | error e => simp [tryBody, hga, hcr, ht, hps]
              | ok message =>
                  simp [tryBody, hga, hcr, ht, hps, send_message_never_raises]

/-- A successful try-block always sets the new cursor from the fetched
response: `tryBody … = ok (ts, sent)` forces `get_api_answer` to have
succeeded on some decoded `response` with `ts = response.get('current_date')`. -/
theorem tryBody_ok_shape (d : Bool) (t : PyVal) (env : FetchOutcome)
    (ts : PyVal) (sent : List String)
    (h : tryBody d t env = Except.ok (ts, sent)) :
    ∃ response, get_api_answer t env = Except.ok response
      ∧ ts = pyGet response "current_date" := by
  cases hga : get_api_answer t env with
  | error e => simp [tryBody, hga] at h
  | ok response =>
      refine ⟨response, rfl, ?_⟩
      cases hcr : check_response response with
      | error e => simp [tryBody, hga, hcr] at h
      | ok homework =>
          cases ht : pyTruthy homework with
          | false =>
              simp [tryBody, hga, hcr, ht] at h
              exact h.1.symm
          | true =>
              cases hps : parse_status homework with
              | error e => simp [tryBody, hga, hcr, ht, hps] at h
              | ok message =>
                  simp [tryBody, hga, hcr, ht, hps,
                    send_message_never_raises] at h
                  exact h.1.symm

/-- When `get_api_answer` succeeds on an HTTP response, the value it
returns is that response's decoded `.json()` body. -/
theorem get_api_answer_ok (t : PyVal) (code : Nat) (b : Except PyErr PyVal)
    (response : PyVal)
    (h : get_api_answer t (FetchOutcome.response code b) = Except.ok response) :
    b = Except.ok response := by
  simp only [get_api_answer] at h
  split_ifs at h
  exact h

/-- C2: per iteration, the cursor is advanced exactly when the
fetch+validate(+translate when an item is present) pass succeeds: a cycle
failure leaves `timestamp` unchanged at its previous value (so the next
iteration re-queries the same window), and a successful pass sets it to
the fetched response's `current_date` value. -/
theorem runCycle_cursor (d : Bool) (env : FetchOutcome) (s : LoopState) :
    (∀ e, tryBody d s.timestamp env = Except.error e →
        (runCycle d env s).1.timestamp = s.timestamp)
    ∧ (∀ ts sent, tryBody d s.timestamp env = Except.ok (ts, sent) →
        (runCycle d env s).1.timestamp = ts)
    ∧ (∀ ts sent statusCode body,
        env = FetchOutcome.response statusCode (Except.ok body) →
        tryBody d s.timestamp env = Except.ok (ts, sent) →
        ts = pyGet body "current_date") := by
  refine ⟨?_, ?_, ?_⟩
  · intro e h
    by_cases hce : s.current_error = errStr e <;>
      simp [runCycle, h, handleError, hce]
  · intro ts sent h
    simp [runCycle, h]
  · intro ts sent statusCode body henv h
    obtain ⟨response, hga, hts⟩ := tryBody_ok_shape d s.timestamp env ts sent h
    rw [henv] at hga
    have hb := get_api_answer_ok s.timestamp statusCode (Except.ok body)
      response hga
    injection hb with hb'
    rw [hts, hb']

/-- Witness for `runCycle_cursor`: an empty-homeworks 200 response advances
the cursor from 0 to 1000 (spec scenario A), while a 401 failure leaves it
at 0. -/
theorem runCycle_cursor_witness :
    (runCycle true
        (FetchOutcome.response 200 (Except.ok (PyVal.dict
          [("homeworks", PyVal.list []), ("current_date", PyVal.int 1000)])))
        (initState 0)).1.timestamp = PyVal.int 1000
    ∧ (runCycle true (FetchOutcome.response 401 (Except.ok PyVal.none))
        (initState 0)).1.timestamp = PyVal.int 0 :=
  ⟨(runCycle_cursor true
      (FetchOutcome.response 200 (Except.ok (PyVal.dict
        [("homeworks", PyVal.list []), ("current_date", PyVal.int 1000)])))
      (initState 0)).2.1 (PyVal.int 1000) [] rfl,
   (runCycle_cursor true (FetchOutcome.response 401 (Except.ok PyVal.none))
      (initState 0)).1
     (PyErr.apiAnswer "Недействительный или некорректный токен PRACTICUM_TOKEN.")
     rfl⟩

/-- C1: error-notification deduplication across two consecutive failing
cycles.  From a state whose LastErrorState (`current_error`) differs from
the first failure's text — i.e. the first of the two failures is not
itself an already-suppressed repeat — two consecutive failures with
identical `str(error)` yield exactly one error notification across both
cycles, and two with differing texts yield one notification per cycle,
with `current_error` updated to the new text on each notification. -/
theorem runCycle_error_dedup (d : Bool) (env1 env2 : FetchOutcome)
    (s : LoopState) (err1 err2 : PyErr)
    (h1 : tryBody d s.timestamp env1 = Except.error err1)
    (h2 : tryBody d s.timestamp env2 = Except.error err2)
    (hfresh : s.current_error ≠ errStr err1) :
    (errStr err2 = errStr err1 →
        (runCycle d env1 s).2.length
            + (runCycle d env2 (runCycle d env1 s).1).2.length = 1
        ∧ (runCycle d env2 (runCycle d env1 s).1).1.current_error
            = errStr err1)
    ∧ (errStr err2 ≠ errStr err1 →
        (runCycle d env1 s).2
            = ["Сбой в работе программы: " ++ errStr err1]
        ∧ (runCycle d env2 (runCycle d env1 s).1).2
            = ["Сбой в работе программы: " ++ errStr err2]
        ∧ (runCycle d env1 s).1.current_error = errStr err1
        ∧ (runCycle d env2 (runCycle d env1 s).1).1.current_error
            = errStr err2) := by
  have hr1 : runCycle d env1 s
      = ({ s with current_error := errStr err1 },
         ["Сбой в работе программы: " ++ errStr err1]) := by
    simp [runCycle, h1, handleError, hfresh]
  constructor
  · intro heq
    have hr2 : runCycle d env2
          ({ s with current_error := errStr err1 } : LoopState)
        = ({ s with current_error := errStr err1 }, []) := by
      simp [runCycle, h2, handleError, heq]
    rw [hr1]
    simp [hr2]
  · intro hne
    have hne' : errStr err1 ≠ errStr err2 := fun hx => hne hx.symm
    have hr2 : runCycle d env2
          ({ s with current_error := errStr err1 } : LoopState)
        = ({ s with current_error := errStr err2 },
           ["Сбой в работе программы: " ++ errStr err2]) := by
      simp [runCycle, h2, handleError, hne']
    rw [hr1]
    simp [hr2]

/-- Witness for `runCycle_error_dedup`: spec scenario D — a 401 failure on
two consecutive cycles from the start state produces exactly one error
notification, and LastErrorState holds the 401 text afterwards. -/
theorem runCycle_error_dedup_witness :
    (runCycle true (FetchOutcome.response 401 (Except.ok PyVal.none))
        (initState 0)).2.length
      + (runCycle true (FetchOutcome.response 401 (Except.ok PyVal.none))
          (runCycle true (FetchOutcome.response 401 (Except.ok PyVal.none))
            (initState 0)).1).2.length = 1
    ∧ (runCycle true (FetchOutcome.response 401 (Except.ok PyVal.none))
        (runCycle true (FetchOutcome.response 401 (Except.ok PyVal.none))
          (initState 0)).1).1.current_error
      = "Недействительный или некорректный токен PRACTICUM_TOKEN." :=
  (runCycle_error_dedup true
      (FetchOutcome.response 401 (Except.ok PyVal.none))
      (FetchOutcome.response 401 (Except.ok PyVal.none))
      (initState 0)
      (PyErr.apiAnswer "Недействительный или некорректный токен PRACTICUM_TOKEN.")
      (PyErr.apiAnswer "Недействительный или некорректный токен PRACTICUM_TOKEN.")
      rfl rfl (by decide)).1 rfl

/-- C8: when the `homeworks` list is non-empty but its first element is
falsy (for instance an empty dict), the cycle invokes neither
`parse_status` nor `send_message` — the second component is `[]` even
though the falsy `{}` item would make `parse_status` fail — yet the cursor
still advances to the response's `current_date`, with `current_error`
untouched. -/
theorem runCycle_falsy_item (d : Bool) (fields : List (String × PyVal))
    (h0 : PyVal) (rest : List PyVal) (s : LoopState)
    (hh : dictGet fields "homeworks" = PyVal.list (h0 :: rest))
    (hc : dictGet fields "current_date" ≠ PyVal.none)
    (hfalsy : pyTruthy h0 = false) :
    runCycle d (FetchOutcome.response 200 (Except.ok (PyVal.dict fields))) s
      = ({ s with timestamp := dictGet fields "current_date" }, []) := by
  have hcr : check_response (PyVal.dict fields) = Except.ok h0 := by
    cases hcd : dictGet fields "current_date"
    case none => exact absurd hcd hc
    all_goals simp [check_response, hh, hcd]
  simp [runCycle, tryBody, get_api_answer, hcr, hfalsy, pyGet]

/-- Witness for `runCycle_falsy_item`: `homeworks` holding a single empty
dict — the cycle sends nothing and the cursor becomes 1000. -/
theorem runCycle_falsy_item_witness :
    runCycle true
        (FetchOutcome.response 200 (Except.ok (PyVal.dict
          [("homeworks", PyVal.list [PyVal.dict []]),
           ("current_date", PyVal.int 1000)])))
        (initState 5)
      = ({ timestamp := PyVal.int 1000, current_error := "" }, []) :=
  runCycle_falsy_item true
    [("homeworks", PyVal.list [PyVal.dict []]),
     ("current_date", PyVal.int 1000)]
    (PyVal.dict []) [] (initState 5) rfl (by simp [dictGet]) rfl

/-- C9: `current_error` is initialised to the empty string, so a cycle
failure whose `str(error)` is the empty string, arriving as the very first
failure, is treated as a duplicate and suppressed — no error notification
is sent and the state is unchanged, even though nothing was previously
notified. -/
theorem runCycle_initial_empty_error (d : Bool) (t0 : Int)
    (env : FetchOutcome) (e : PyErr)
    (herr : tryBody d (initState t0).timestamp env = Except.error e)
    (htext : errStr e = "") :
    (initState t0).current_error = ""
    ∧ runCycle d env (initState t0) = (initState t0, []) := by
  refine ⟨rfl, ?_⟩
  have herr' : tryBody d (PyVal.int t0) env = Except.error e := herr
  simp [runCycle, herr', handleError, htext, initState]

/-- Witness for `runCycle_initial_empty_error`: a 200 response whose
`.json()` raises a bare `Exception` with empty text. -/
theorem runCycle_initial_empty_error_witness :
    (initState 7).current_error = ""
    ∧ runCycle true
        (FetchOutcome.response 200 (Except.error (PyErr.exception "")))
        (initState 7)
      = (initState 7, []) :=
  runCycle_initial_empty_error true 7
    (FetchOutcome.response 200 (Except.error (PyErr.exception "")))
    (PyErr.exception "") rfl rfl

/-- C10: on a cycle whose fetch, validate and translate all succeed, a
failed Telegram delivery is absorbed inside `send_message`: the cycle
still succeeds with the same outcome as a delivered one, the cursor still
advances to the response's `current_date` (`ts`), `current_error` is
unchanged, and no error-path notification is triggered (the cycle's only
`send_message` text is the status message). -/
theorem runCycle_delivery_failure_frame (env : FetchOutcome) (s : LoopState)
    (ts : PyVal) (sent : List String)
    (hok : tryBody true s.timestamp env = Except.ok (ts, sent)) :
    tryBody false s.timestamp env = Except.ok (ts, sent)
    ∧ runCycle false env s = ({ s with timestamp := ts }, sent)
    ∧ (runCycle false env s).1.current_error = s.current_error := by
  have hf : tryBody false s.timestamp env = Except.ok (ts, sent) :=
    (tryBody_delivery_irrel false true s.timestamp env).trans hok
  refine ⟨hf, ?_, ?_⟩
  · simp [runCycle, hf]
  · simp [runCycle, hf]

/-- Witness for `runCycle_delivery_failure_frame`: spec scenario B with the
delivery failing — the status message is still the only `send_message`
text, and the cursor becomes 1000. -/
theorem runCycle_delivery_failure_frame_witness :
    runCycle false
        (FetchOutcome.response 200 (Except.ok (PyVal.dict
          [("homeworks", PyVal.list [PyVal.dict
              [("homework_name", PyVal.str "hw1"),
               ("status", PyVal.str "approved")]]),
           ("current_date", PyVal.int 1000)])))
        (initState 0)
      = ({ timestamp := PyVal.int 1000, current_error := "" },
         ["Изменился статус проверки работы \"hw1\". "
           ++ "Работа проверена: ревьюеру всё понравилось. Ура!"])
    ∧ (runCycle false
        (FetchOutcome.response 200 (Except.ok (PyVal.dict
          [("homeworks", PyVal.list [PyVal.dict
              [("homework_name", PyVal.str "hw1"),
               ("status", PyVal.str "approved")]]),
           ("current_date", PyVal.int 1000)])))
        (initState 0)).1.current_error = "" :=
  ⟨(runCycle_delivery_failure_frame
      (FetchOutcome.response 200 (Except.ok (PyVal.dict
        [("homeworks", PyVal.list [PyVal.dict
            [("homework_name", PyVal.str "hw1"),
             ("status", PyVal.str "approved")]]),
         ("current_date", PyVal.int 1000)])))
      (initState 0) (PyVal.int 1000)
      ["Изменился статус проверки работы \"hw1\". "
        ++ "Работа проверена: ревьюеру всё понравилось. Ура!"]
      rfl).2.1,
   (runCycle_delivery_failure_frame
      (FetchOutcome.response 200 (Except.ok (PyVal.dict
        [("homeworks", PyVal.list [PyVal.dict
            [("homework_name", PyVal.str "hw1"),
             ("status", PyVal.str "approved")]]),
         ("current_date", PyVal.int 1000)])))
      (initState 0) (PyVal.int 1000)
      ["Изменился статус проверки работы \"hw1\". "
        ++ "Работа проверена: ревьюеру всё понравилось. Ура!"]
      rfl).2.2⟩
